import Mathlib

/-!
Verification of the `Battery` record from `BESS_Model/assests/battery.py`.

The Python class stores eight numeric attributes.  The constructor copies
six of them verbatim and stores `min_depth_of_discharge * capacity` and
`max_depth_of_discharge * capacity` for the last two.  `get_parameters`
returns a dict mapping the eight attribute names to the current values.

Numeric values are modelled as rationals.  The dict returned by
`get_parameters` is modelled as an association list in insertion order.
Attribute mutation is modelled by per-field setters, and a method call
that could in principle mutate the receiver is modelled by the
state-passing wrapper `get_parameters_call`.
-/

structure Battery where
  current_charge : ℚ
  capacity : ℚ
  charging_power_limit : ℚ
  discharging_power_limit : ℚ
  charging_efficiency : ℚ
  discharging_efficiency : ℚ
  min_depth_of_discharge : ℚ
  max_depth_of_discharge : ℚ
deriving DecidableEq, Repr

/-- `Battery.__init__`: the six plain fields are stored as supplied, the two
depth-of-discharge fields are stored as `fraction * capacity`. -/
def Battery.init (current_charge capacity charging_power_limit
    discharging_power_limit charging_efficiency discharging_efficiency
    min_depth_of_discharge max_depth_of_discharge : ℚ) : Battery :=
  Battery.mk current_charge capacity charging_power_limit
    discharging_power_limit charging_efficiency discharging_efficiency
    (min_depth_of_discharge * capacity) (max_depth_of_discharge * capacity)

/-- The default values of the eight constructor arguments, applied when the
constructor is called with no arguments. -/
def Battery.initDefault : Battery :=
  Battery.init 0 0 1 1 (95/100) (95/100) (1/10) (97/100)

/-- `Battery.get_parameters`: the returned dict, as an association list in
the insertion order of the source. -/
def Battery.get_parameters (b : Battery) : List (String × ℚ) :=
  [ (("current_charge"), b.current_charge),
    (("capacity"), b.capacity),
    (("charging_power_limit"), b.charging_power_limit),
    (("discharging_power_limit"), b.discharging_power_limit),
    (("charging_efficiency"), b.charging_efficiency),
    (("discharging_efficiency"), b.discharging_efficiency),
    (("min_depth_of_discharge"), b.min_depth_of_discharge),
    (("max_depth_of_discharge"), b.max_depth_of_discharge) ]

/-- A call of `get_parameters` on a receiver, returning both the result and
the receiver's state after the call.  The method body only reads
attributes, so the state after the call is the receiver unchanged. -/
def Battery.get_parameters_call (b : Battery) : List (String × ℚ) × Battery :=
  (b.get_parameters, b)

/-- Attribute assignment `b.current_charge = v`. -/
def Battery.set_current_charge (b : Battery) (v : ℚ) : Battery :=
  Battery.mk v b.capacity b.charging_power_limit b.discharging_power_limit
    b.charging_efficiency b.discharging_efficiency
    b.min_depth_of_discharge b.max_depth_of_discharge

/-- Attribute assignment `b.capacity = v`. -/
def Battery.set_capacity (b : Battery) (v : ℚ) : Battery :=
  Battery.mk b.current_charge v b.charging_power_limit
    b.discharging_power_limit b.charging_efficiency b.discharging_efficiency
    b.min_depth_of_discharge b.max_depth_of_discharge

/-- Attribute assignment `b.charging_power_limit = v`. -/
def Battery.set_charging_power_limit (b : Battery) (v : ℚ) : Battery :=
  Battery.mk b.current_charge b.capacity v b.discharging_power_limit
    b.charging_efficiency b.discharging_efficiency
    b.min_depth_of_discharge b.max_depth_of_discharge

/-- Attribute assignment `b.discharging_power_limit = v`. -/
def Battery.set_discharging_power_limit (b : Battery) (v : ℚ) : Battery :=
  Battery.mk b.current_charge b.capacity b.charging_power_limit v
    b.charging_efficiency b.discharging_efficiency
    b.min_depth_of_discharge b.max_depth_of_discharge

/-- Attribute assignment `b.charging_efficiency = v`. -/
def Battery.set_charging_efficiency (b : Battery) (v : ℚ) : Battery :=
  Battery.mk b.current_charge b.capacity b.charging_power_limit
    b.discharging_power_limit v b.discharging_efficiency
    b.min_depth_of_discharge b.max_depth_of_discharge

/-- Attribute assignment `b.discharging_efficiency = v`. -/
def Battery.set_discharging_efficiency (b : Battery) (v : ℚ) : Battery :=
  Battery.mk b.current_charge b.capacity b.charging_power_limit
    b.discharging_power_limit b.charging_efficiency v
    b.min_depth_of_discharge b.max_depth_of_discharge

/-- Attribute assignment `b.min_depth_of_discharge = v`. -/
def Battery.set_min_depth_of_discharge (b : Battery) (v : ℚ) : Battery :=
  Battery.mk b.current_charge b.capacity b.charging_power_limit
    b.discharging_power_limit b.charging_efficiency b.discharging_efficiency
    v b.max_depth_of_discharge

/-- Attribute assignment `b.max_depth_of_discharge = v`. -/
def Battery.set_max_depth_of_discharge (b : Battery) (v : ℚ) : Battery :=
  Battery.mk b.current_charge b.capacity b.charging_power_limit
    b.discharging_power_limit b.charging_efficiency b.discharging_efficiency
    b.min_depth_of_discharge v

/-- C1: constructing a Battery with fraction `f` for `min_depth_of_discharge`
and capacity `c` stores `f * c`, likewise `g * c` for
`max_depth_of_discharge`; in particular `capacity = 100`, fractions `0.1`
and `0.97` (other arguments at their defaults) store and return `10`
and `97`. -/
theorem battery_dod_conversion (cc c cpl dpl ce de f g : ℚ) :
    (Battery.init cc c cpl dpl ce de f g).min_depth_of_discharge = f * c ∧
    (Battery.init cc c cpl dpl ce de f g).max_depth_of_discharge = g * c ∧
    (Battery.init 0 100 1 1 (95/100) (95/100) (1/10)
        (97/100)).min_depth_of_discharge = 10 ∧
    (Battery.init 0 100 1 1 (95/100) (95/100) (1/10)
        (97/100)).max_depth_of_discharge = 97 ∧
    List.lookup ("min_depth_of_discharge")
      (Battery.init 0 100 1 1 (95/100) (95/100) (1/10)
        (97/100)).get_parameters = some 10 ∧
    List.lookup ("max_depth_of_discharge")
      (Battery.init 0 100 1 1 (95/100) (95/100) (1/10)
        (97/100)).get_parameters = some 97 := by
  refine ⟨rfl, rfl, by norm_num [Battery.init], by norm_num [Battery.init],
    ?_, ?_⟩ <;>
  simp [Battery.init, Battery.get_parameters, List.lookup] <;> norm_num

/-- C2: `get_parameters` returns a mapping with exactly the eight field
names as keys, in order and without repetition, each bound to the field's
current value. -/
theorem battery_get_parameters_keys (b : Battery) :
    (b.get_parameters).map Prod.fst =
      [("current_charge"), ("capacity"), ("charging_power_limit"),
       ("discharging_power_limit"), ("charging_efficiency"),
       ("discharging_efficiency"), ("min_depth_of_discharge"),
       ("max_depth_of_discharge")] ∧
    (b.get_parameters).length = 8 ∧
    List.lookup ("current_charge") b.get_parameters = some b.current_charge ∧
    List.lookup ("capacity") b.get_parameters = some b.capacity ∧
    List.lookup ("charging_power_limit") b.get_parameters
      = some b.charging_power_limit ∧
    List.lookup ("discharging_power_limit") b.get_parameters
      = some b.discharging_power_limit ∧
    List.lookup ("charging_efficiency") b.get_parameters
      = some b.charging_efficiency ∧
    List.lookup ("discharging_efficiency") b.get_parameters
      = some b.discharging_efficiency ∧
    List.lookup ("min_depth_of_discharge") b.get_parameters
      = some b.min_depth_of_discharge ∧
    List.lookup ("max_depth_of_discharge") b.get_parameters
      = some b.max_depth_of_discharge := by
  exact ⟨rfl, rfl, rfl, rfl, rfl, rfl, rfl, rfl, rfl, rfl⟩

/-- C3: default construction yields
`current_charge = 0`, `capacity = 0`, `charging_power_limit = 1`,
`discharging_power_limit = 1`, `charging_efficiency = 0.95`,
`discharging_efficiency = 0.95`, `min_depth_of_discharge = 0`,
`max_depth_of_discharge = 0`. -/
theorem battery_defaults :
    Battery.initDefault = Battery.mk 0 0 1 1 (95/100) (95/100) 0 0 := by
  simp [Battery.initDefault, Battery.init]

/-- C4 counterexample: with a negative supplied capacity the stored
depth-of-discharge bounds are NOT both 0: at `capacity = -1` with
fractions `0.1` and `0.97`, the stored bounds are `-0.1` and `-0.97`. -/
theorem battery_negative_capacity_counterexample :
    (Battery.init 0 (-1) 1 1 (95/100) (95/100) (1/10)
        (97/100)).capacity < 0 ∧
    (Battery.init 0 (-1) 1 1 (95/100) (95/100) (1/10)
        (97/100)).min_depth_of_discharge ≠ 0 ∧
    (Battery.init 0 (-1) 1 1 (95/100) (95/100) (1/10)
        (97/100)).max_depth_of_discharge ≠ 0 := by
  refine ⟨?_, ?_, ?_⟩ <;> norm_num [Battery.init]

/-- C4 (amended): construction always succeeds, and when the supplied
capacity is zero both stored depth-of-discharge bounds equal 0,
regardless of the supplied fractions. -/
theorem battery_zero_capacity_dod (cc cpl dpl ce de f g : ℚ) :
    (Battery.init cc 0 cpl dpl ce de f g).min_depth_of_discharge = 0 ∧
    (Battery.init cc 0 cpl dpl ce de f g).max_depth_of_discharge = 0 := by
  constructor <;> simp [Battery.init]

/-- C5: `get_parameters` is a fresh snapshot: after mutating any one of the
eight attributes to `v`, the returned mapping binds that attribute's key
to `v`. -/
theorem battery_snapshot_after_mutation (b : Battery) (v : ℚ) :
    List.lookup ("current_charge")
      (b.set_current_charge v).get_parameters = some v ∧
    List.lookup ("capacity") (b.set_capacity v).get_parameters = some v ∧
    List.lookup ("charging_power_limit")
      (b.set_charging_power_limit v).get_parameters = some v ∧
    List.lookup ("discharging_power_limit")
      (b.set_discharging_power_limit v).get_parameters = some v ∧
    List.lookup ("charging_efficiency")
      (b.set_charging_efficiency v).get_parameters = some v ∧
    List.lookup ("discharging_efficiency")
      (b.set_discharging_efficiency v).get_parameters = some v ∧
    List.lookup ("min_depth_of_discharge")
      (b.set_min_depth_of_discharge v).get_parameters = some v ∧
    List.lookup ("max_depth_of_discharge")
      (b.set_max_depth_of_discharge v).get_parameters = some v := by
  exact ⟨rfl, rfl, rfl, rfl, rfl, rfl, rfl, rfl⟩

/-- C6: the six fields other than the two depth-of-discharge fields are
stored at construction exactly as supplied. -/
theorem battery_plain_fields_stored (cc c cpl dpl ce de f g : ℚ) :
    (Battery.init cc c cpl dpl ce de f g).current_charge = cc ∧
    (Battery.init cc c cpl dpl ce de f g).capacity = c ∧
    (Battery.init cc c cpl dpl ce de f g).charging_power_limit = cpl ∧
    (Battery.init cc c cpl dpl ce de f g).discharging_power_limit = dpl ∧
    (Battery.init cc c cpl dpl ce de f g).charging_efficiency = ce ∧
    (Battery.init cc c cpl dpl ce de f g).discharging_efficiency = de := by
  exact ⟨rfl, rfl, rfl, rfl, rfl, rfl⟩

/-- C7: calling `get_parameters` twice with no intervening mutation
returns two equal mappings (the second call is made on the state left by
the first call). -/
theorem battery_get_parameters_idempotent (b : Battery) :
    (b.get_parameters_call).1
      = ((b.get_parameters_call).2.get_parameters_call).1 := rfl

/-- C8: construction performs no validation: for every choice of the eight
numeric arguments it succeeds and produces exactly the record with the six
plain fields as supplied and the two depth-of-discharge products. -/
theorem battery_init_total_no_validation (cc c cpl dpl ce de f g : ℚ) :
    Battery.init cc c cpl dpl ce de f g
      = Battery.mk cc c cpl dpl ce de (f * c) (g * c) := rfl

/-- C9: `get_parameters` has no side effects: the receiver's state after
the call equals the receiver before the call (all eight attributes
unchanged), and the call always returns a value. -/
theorem battery_get_parameters_no_side_effects (b : Battery) :
    (b.get_parameters_call).2 = b := rfl

/-- C10: if the supplied min fraction is ≤ the supplied max fraction and
capacity ≥ 0, the constructed record satisfies
`min_depth_of_discharge ≤ max_depth_of_discharge`, and the state after a
`get_parameters` call still satisfies it. -/
theorem battery_dod_ordering (cc c cpl dpl ce de f g : ℚ)
    (hfg : f ≤ g) (hc : 0 ≤ c) :
    (Battery.init cc c cpl dpl ce de f g).min_depth_of_discharge ≤
      (Battery.init cc c cpl dpl ce de f g).max_depth_of_discharge ∧
    ((Battery.init cc c cpl dpl ce de f
        g).get_parameters_call).2.min_depth_of_discharge ≤
      ((Battery.init cc c cpl dpl ce de f
        g).get_parameters_call).2.max_depth_of_discharge := by
  constructor <;> exact mul_le_mul_of_nonneg_right hfg hc

/-- C10 witness: the ordering theorem applied at
`capacity = 100`, fractions `0.1 ≤ 0.97`. -/
theorem battery_dod_ordering_witness :
    (Battery.init 0 100 1 1 (95/100) (95/100) (1/10)
        (97/100)).min_depth_of_discharge ≤
      (Battery.init 0 100 1 1 (95/100) (95/100) (1/10)
        (97/100)).max_depth_of_discharge ∧
    ((Battery.init 0 100 1 1 (95/100) (95/100) (1/10)
        (97/100)).get_parameters_call).2.min_depth_of_discharge ≤
      ((Battery.init 0 100 1 1 (95/100) (95/100) (1/10)
        (97/100)).get_parameters_call).2.max_depth_of_discharge :=
  battery_dod_ordering 0 100 1 1 (95/100) (95/100) (1/10) (97/100)
    (by norm_num) (by norm_num)
